import Mathlib

/-!
A verification development for the QA test-automation core of this
repository: the action model and executor (`src/mcp_server/actions.py`),
the natural-language instruction parser (`src/mcp_server/parser.py`),
and the test orchestrator (`src/mcp_server/server.py`).

Modelling conventions:
* Python exceptions are modelled with `Except String`: a handler or
  browser operation that raises is a function returning `Except.error`
  with the exception's message.
* The browser/Shopify/verification collaborators are external effects;
  they are modelled as an oracle record `BrowserEnv` whose operations
  return `Except String` outcomes.  Likewise the LLM collaborator is an
  oracle passed to the parser, and the executor seen from the
  orchestrator is an oracle indexed by call position.
* Python dictionaries with string keys and string-ish values are
  association lists `List (String × String)`; `dict.get` is `dictGet`.
* An `Action`'s `action_type` is carried as the enum's value string, so
  that actions whose type is not one of the twelve recognized kinds are
  representable (the case `_dispatch_action` defends against).
-/

namespace QA

/-- Python `d.get(k)` on a string-keyed dict. -/
def dictGet (d : List (String × String)) (k : String) : Option String :=
  match d with
  | [] => none
  | (k', v) :: t => if k' = k then some v else dictGet t k

/-- Python `x = d.get(k)` followed by a `not x` truthiness test: `none` when the
key is absent or its value is the empty string. -/
def dictGetNonEmpty (d : List (String × String)) (k : String) : Option String :=
  match dictGet d k with
  | none => none
  | some v => if v = "" then none else some v

/-- The value strings of the twelve members of the `ActionType` enum
(`actions.py`). -/
def actionTypeValues : List String :=
  ["navigate", "search", "click", "fill", "add_to_cart", "go_to_cart",
   "checkout", "verify_text", "verify_element", "verify_url",
   "screenshot", "select_variant"]

/-- The `Action` class: a kind (its enum value string), a parameter
dict, and a human description. -/
structure Action where
  action_type : String
  parameters : List (String × String)
  description : String
deriving DecidableEq

/-- Constructor `Action.__init__`: the `description or ...` default —
an empty description defaults to `"Execute <kind>"`. -/
def mkAction (action_type : String) (parameters : List (String × String))
    (description : String) : Action :=
  { action_type := action_type, parameters := parameters,
    description := if description = "" then "Execute " ++ action_type else description }

/-- The result dict built by `ActionExecutor.execute`:
`{"status": ..., "action": ..., **data}` plus the `"error"` key on the
error path. -/
structure ActionResult where
  status : String
  action : String
  data : List (String × String)
  error : Option String
deriving DecidableEq

/-- Oracle for the browser/Shopify/verification collaborators used by the
executor's handlers.  Each operation either succeeds (with a screenshot
path for `take_screenshot`) or raises with a message. -/
structure BrowserEnv where
  navigate_to : String → Except String Unit
  go_to_homepage : Except String Unit
  search_product : String → Except String Unit
  click_element : String → Except String Unit
  fill_input : String → String → Except String Unit
  add_to_cart : Except String Unit
  go_to_cart : Except String Unit
  proceed_to_checkout : Except String Unit
  verify_text_contains : String → String → Except String Unit
  verify_element_present : String → Except String Unit
  verify_url_contains : String → Except String Unit
  take_screenshot : String → Except String String
  select_product_variant : String → String → Except String Unit

/-- Handler `ActionExecutor._handle_navigate`. -/
def handle_navigate (env : BrowserEnv) (a : Action) :
    Except String (List (String × String)) :=
  match dictGetNonEmpty a.parameters "url" with
  | none => .error "URL parameter required for navigate action"
  | some url =>
    (if url = "homepage" then env.go_to_homepage else env.navigate_to url).map
      fun _ => [("url", url)]

/-- Handler `ActionExecutor._handle_search`. -/
def handle_search (env : BrowserEnv) (a : Action) :
    Except String (List (String × String)) :=
  match dictGetNonEmpty a.parameters "term" with
  | none => .error "Term parameter required for search action"
  | some term => (env.search_product term).map fun _ => [("search_term", term)]

/-- Handler `ActionExecutor._handle_click`. -/
def handle_click (env : BrowserEnv) (a : Action) :
    Except String (List (String × String)) :=
  match dictGetNonEmpty a.parameters "selector" with
  | none => .error "Selector parameter required for click action"
  | some sel => (env.click_element sel).map fun _ => [("selector", sel)]

/-- Handler `ActionExecutor._handle_fill`: `selector` is truthiness-tested while
`text` is only tested against `None` (absence), so an empty `text` is
accepted. -/
def handle_fill (env : BrowserEnv) (a : Action) :
    Except String (List (String × String)) :=
  match dictGetNonEmpty a.parameters "selector", dictGet a.parameters "text" with
  | some sel, some text => (env.fill_input sel text).map fun _ => [("selector", sel)]
  | _, _ => .error "Selector and text parameters required for fill action"

/-- Handler `ActionExecutor._handle_add_to_cart`. -/
def handle_add_to_cart (env : BrowserEnv) (_a : Action) :
    Except String (List (String × String)) :=
  env.add_to_cart.map fun _ => []

/-- Handler `ActionExecutor._handle_go_to_cart`. -/
def handle_go_to_cart (env : BrowserEnv) (_a : Action) :
    Except String (List (String × String)) :=
  env.go_to_cart.map fun _ => []

/-- Handler `ActionExecutor._handle_checkout`. -/
def handle_checkout (env : BrowserEnv) (_a : Action) :
    Except String (List (String × String)) :=
  env.proceed_to_checkout.map fun _ => []

/-- Handler `ActionExecutor._handle_verify_text`. -/
def handle_verify_text (env : BrowserEnv) (a : Action) :
    Except String (List (String × String)) :=
  match dictGetNonEmpty a.parameters "selector", dictGetNonEmpty a.parameters "text" with
  | some sel, some text =>
    (env.verify_text_contains sel text).map fun _ => [("selector", sel), ("text", text)]
  | _, _ => .error "Selector and text parameters required for verify_text action"

/-- Handler `ActionExecutor._handle_verify_element`. -/
def handle_verify_element (env : BrowserEnv) (a : Action) :
    Except String (List (String × String)) :=
  match dictGetNonEmpty a.parameters "selector" with
  | none => .error "Selector parameter required for verify_element action"
  | some sel => (env.verify_element_present sel).map fun _ => [("selector", sel)]

/-- Handler `ActionExecutor._handle_verify_url`. -/
def handle_verify_url (env : BrowserEnv) (a : Action) :
    Except String (List (String × String)) :=
  match dictGetNonEmpty a.parameters "url" with
  | none => .error "URL parameter required for verify_url action"
  | some url => (env.verify_url_contains url).map fun _ => [("url", url)]

/-- Handler `ActionExecutor._handle_screenshot`:
`parameters.get("name", "screenshot")`. -/
def handle_screenshot (env : BrowserEnv) (a : Action) :
    Except String (List (String × String)) :=
  let name := (dictGet a.parameters "name").getD "screenshot"
  (env.take_screenshot name).map fun p => [("screenshot_path", p)]

/-- Handler `ActionExecutor._handle_select_variant`. -/
def handle_select_variant (env : BrowserEnv) (a : Action) :
    Except String (List (String × String)) :=
  match dictGetNonEmpty a.parameters "type", dictGetNonEmpty a.parameters "value" with
  | some ty, some v =>
    (env.select_product_variant ty v).map fun _ =>
      [("variant_type", ty), ("variant_value", v)]
  | _, _ => .error "Type and value parameters required for select_variant action"

/-- Dispatch `ActionExecutor._dispatch_action`: the fixed kind→handler mapping;
a kind outside the mapping raises a `ValueError` immediately
(`Except.error`, before any handler is entered). -/
def dispatch_action (env : BrowserEnv) (a : Action) :
    Except String (List (String × String)) :=
  if a.action_type = "navigate" then handle_navigate env a
  else if a.action_type = "search" then handle_search env a
  else if a.action_type = "click" then handle_click env a
  else if a.action_type = "fill" then handle_fill env a
  else if a.action_type = "add_to_cart" then handle_add_to_cart env a
  else if a.action_type = "go_to_cart" then handle_go_to_cart env a
  else if a.action_type = "checkout" then handle_checkout env a
  else if a.action_type = "verify_text" then handle_verify_text env a
  else if a.action_type = "verify_element" then handle_verify_element env a
  else if a.action_type = "verify_url" then handle_verify_url env a
  else if a.action_type = "screenshot" then handle_screenshot env a
  else if a.action_type = "select_variant" then handle_select_variant env a
  else .error ("Unknown action type: " ++ a.action_type)

/-- Method `ActionExecutor.execute`: wraps `_dispatch_action` in
`try/except Exception`, converting any raise into an `error`-status
result that carries the exception's message. -/
def execute (env : BrowserEnv) (a : Action) : ActionResult :=
  match dispatch_action env a with
  | .ok data =>
    { status := "success", action := a.action_type, data := data, error := none }
  | .error e =>
    { status := "error", action := a.action_type, data := [], error := some e }

/-! ### Parser (`src/mcp_server/parser.py`) -/

/-- One splitting pass of `re.split(r'[.!?\n]|(?:\d+\.)', instruction)`:
a single char of `.!?\n` separates, and a digit run immediately followed
by `.` separates as one match (the `\d+\.` alternative).  `cur` is the
current piece reversed; `pend` is a reversed run of digits whose fate
(separator prefix or literal text) is not yet known. -/
def splitStepsAux : List Char → List Char → List Char → List (List Char)
  | [], cur, pend => [(pend ++ cur).reverse]
  | c :: rest, cur, pend =>
    if c = '.' then (cur.reverse) :: splitStepsAux rest [] []
    else if c = '!' ∨ c = '?' ∨ c = '\n' then
      ((pend ++ cur).reverse) :: splitStepsAux rest [] []
    else if c.isDigit then splitStepsAux rest cur (c :: pend)
    else splitStepsAux rest (c :: (pend ++ cur)) []

/-- Full `re.split(r'[.!?\n]|(?:\d+\.)', instruction)`. -/
def splitSteps (instruction : String) : List (List Char) :=
  splitStepsAux instruction.data [] []

/-- Python `str.strip()` on a char list. -/
def stripChars (cs : List Char) : List Char :=
  ((cs.dropWhile Char.isWhitespace).reverse.dropWhile Char.isWhitespace).reverse

/-- Python substring membership `pat in s` on char lists. -/
def listContains (pat : List Char) : List Char → Bool
  | [] => pat.isPrefixOf []
  | s@(_ :: t) => pat.isPrefixOf s || listContains pat t

/-- Python `pat in s` on strings. -/
def strContains (s pat : String) : Bool :=
  listContains pat.data s.data

/-- Python `any(word in s for word in words)`. -/
def containsAnyOf (s : String) (words : List String) : Bool :=
  words.any fun w => strContains s w

/-- Python `str.lower()` (ASCII case folding, as in the instructions the
rules handle). -/
def lowerStr (s : String) : String :=
  String.mk (s.data.map Char.toLower)

/-- Is the char one of the quote chars of the char class `["\']`? -/
def isQuoteChar (c : Char) : Bool :=
  c = '"' || c = '\''

/-- The regex fragment `["\']?([^"\']+)["\']?` matched at the head of
`cs`, returning the group.  The optional opening quote is taken greedily;
`[^"\']+` then takes the maximal non-quote run (backtracking cannot help:
a shorter run leaves a non-quote char for the optional closing quote,
which never fails anyway, and dropping a consumed opening quote leaves a
quote char under `[^"\']+`). -/
def matchTermPart (cs : List Char) : Option (List Char) :=
  match cs with
  | [] => none
  | c :: rest =>
    if isQuoteChar c then
      let run := rest.takeWhile fun d => !isQuoteChar d
      if run = [] then none else some run
    else
      some (cs.takeWhile fun d => !isQuoteChar d)

/-- An optional literal alternative `(?:p )?` before the term fragment:
try consuming the literal first (greedy), else match the fragment in
place. -/
def matchOptLitThenTerm (lit : List Char) (cs : List Char) : Option (List Char) :=
  (if lit.isPrefixOf cs then matchTermPart (cs.drop lit.length) else none)
    <|> matchTermPart cs

/-- A two-alternative optional literal `(?:p |q )?` before the term
fragment, alternatives tried in pattern order. -/
def matchOpt2LitThenTerm (l1 l2 : List Char) (cs : List Char) : Option (List Char) :=
  (if l1.isPrefixOf cs then matchTermPart (cs.drop l1.length) else none)
    <|> (if l2.isPrefixOf cs then matchTermPart (cs.drop l2.length) else none)
    <|> matchTermPart cs

/-- Semantics of `re.search`: try the attempt at each position, leftmost first. -/
def searchLeftmost (attempt : List Char → Option (List Char)) :
    List Char → Option (List Char)
  | [] => attempt []
  | s@(_ :: t) =>
    match attempt s with
    | some g => some g
    | none => searchLeftmost attempt t

/-- Anchored attempt for `search (?:for )?["\']?([^"\']+)["\']?`. -/
def attemptSearchTerm (cs : List Char) : Option (List Char) :=
  if ("search ".data).isPrefixOf cs then
    matchOptLitThenTerm "for ".data (cs.drop 7)
  else none

/-- Anchored attempt for `click (?:on |the )?["\']?([^"\']+)["\']?`. -/
def attemptClickTarget (cs : List Char) : Option (List Char) :=
  if ("click ".data).isPrefixOf cs then
    matchOpt2LitThenTerm "on ".data "the ".data (cs.drop 6)
  else none

/-- Anchored attempt for
`(?:select|choose) (?:size |color )?["\']?([^"\']+)["\']?`. -/
def attemptSelectValue (cs : List Char) : Option (List Char) :=
  if ("select ".data).isPrefixOf cs then
    matchOpt2LitThenTerm "size ".data "color ".data (cs.drop 7)
  else if ("choose ".data).isPrefixOf cs then
    matchOpt2LitThenTerm "size ".data "color ".data (cs.drop 7)
  else none

/-- Anchored attempt for `contains? ["\']?([^"\']+)["\']?` (the greedy
`s?` tries `contains ` before `contain `). -/
def attemptContainsArg (cs : List Char) : Option (List Char) :=
  (if ("contains ".data).isPrefixOf cs then matchTermPart (cs.drop 9) else none)
    <|> (if ("contain ".data).isPrefixOf cs then matchTermPart (cs.drop 8) else none)

/-- Anchored attempt for `["\']([^"\']+)["\']`: an opening quote, a
non-empty non-quote run, and a (maximality-forced) closing quote. -/
def attemptQuoted (cs : List Char) : Option (List Char) :=
  match cs with
  | [] => none
  | c :: rest =>
    if isQuoteChar c then
      let run := rest.takeWhile fun d => !isQuoteChar d
      if run = [] then none
      else if rest.dropWhile (fun d => !isQuoteChar d) = [] then none
      else some run
    else none

/-- Python `match.group(1).strip()` packaged as a string. -/
def groupStripped (g : List Char) : String :=
  String.mk (stripChars g)

/-- The loop body of `NaturalLanguageParser._parse_with_rules` for one
step: the ordered `if/elif` keyword chain, producing the appended
action(s) for that step (at most one). -/
def parseStep (step : String) : List Action :=
  let sl := lowerStr step
  if containsAnyOf sl ["go to", "navigate to", "visit", "open"] then
    if strContains sl "homepage" || strContains sl "home page" then
      [mkAction "navigate" [("url", "homepage")] "Navigate to homepage"]
    else if strContains sl "cart" then
      [mkAction "go_to_cart" [] "Navigate to cart"]
    else []
  else if containsAnyOf sl ["search for", "search"] then
    match searchLeftmost attemptSearchTerm sl.data with
    | some g =>
      let term := groupStripped g
      [mkAction "search" [("term", term)] ("Search for " ++ term)]
    | none => []
  else if strContains sl "add to cart" || strContains sl "add product" then
    [mkAction "add_to_cart" [] "Add product to cart"]
  else if containsAnyOf sl ["checkout", "proceed to checkout"] then
    [mkAction "checkout" [] "Proceed to checkout"]
  else if strContains sl "click" then
    match searchLeftmost attemptClickTarget sl.data with
    | some g =>
      let element := groupStripped g
      [mkAction "click"
        [("selector", "button:has-text(\"" ++ element ++ "\")")]
        ("Click " ++ element)]
    | none => []
  else if strContains sl "select" || strContains sl "choose" then
    match searchLeftmost attemptSelectValue sl.data with
    | some g =>
      let v := groupStripped g
      let ty := if strContains sl "size" then "Size" else "Option"
      [mkAction "select_variant" [("type", ty), ("value", v)]
        ("Select " ++ ty ++ ": " ++ v)]
    | none => []
  else if containsAnyOf sl ["verify", "check", "assert"] then
    if strContains sl "url" || strContains sl "page" then
      match searchLeftmost attemptContainsArg sl.data with
      | some g =>
        let u := groupStripped g
        [mkAction "verify_url" [("url", u)] ("Verify URL contains " ++ u)]
      | none => []
    else if strContains sl "text" || strContains sl "contains" then
      match searchLeftmost attemptQuoted step.data with
      | some g =>
        let t := String.mk g
        [mkAction "verify_text" [("selector", "body"), ("text", t)]
          ("Verify text: " ++ t)]
      | none => []
    else []
  else if strContains sl "screenshot" || strContains sl "capture" then
    [mkAction "screenshot" [] "Take screenshot"]
  else []

/-- Method `NaturalLanguageParser._parse_with_rules`: split into steps, strip,
drop empties, and run the keyword chain on each step in order. -/
def parse_with_rules (instruction : String) : List Action :=
  let steps :=
    ((splitSteps instruction).map fun cs => String.mk (stripChars cs)).filter
      fun s => s ≠ ""
  steps.flatMap parseStep

/-- One JSON object of the LLM's response array, as seen by the
conversion loop of `_parse_with_llm`: the `action_type` and
`description` keys may be absent, `parameters` defaults to `{}`. -/
structure RawActionData where
  action_type : Option String
  parameters : Option (List (String × String))
  description : Option String

/-- The per-object conversion of `_parse_with_llm`: `KeyError` on a
missing `action_type` and `ValueError` on an unrecognized one are caught
and the object skipped. -/
def convertRawAction (d : RawActionData) : Option Action :=
  match d.action_type with
  | none => none
  | some t =>
    if t ∈ actionTypeValues then
      some (mkAction t (d.parameters.getD []) ((d.description).getD ""))
    else none

/-- Method `NaturalLanguageParser._parse_with_llm`, with the LLM round-trip and
JSON extraction (`ainvoke` + `_extract_json_from_response`) as an oracle
`llmStep`: a raise anywhere in the try block falls back to
`_parse_with_rules` on the same instruction. -/
def parse_with_llm (llmStep : String → Except String (List RawActionData))
    (instruction : String) : List Action :=
  match llmStep instruction with
  | .ok ds => ds.filterMap convertRawAction
  | .error _ => parse_with_rules instruction

/-- Method `NaturalLanguageParser.parse`: the strategy chosen at construction
time (`self.llm` present or not). -/
def parse (llm : Option (String → Except String (List RawActionData)))
    (instruction : String) : List Action :=
  match llm with
  | some f => parse_with_llm f instruction
  | none => parse_with_rules instruction

/-! ### Orchestrator (`src/mcp_server/server.py`) -/

/-- The `TestResult` class.  Timestamps are opaque clock readings
(milliseconds, as `Int`). -/
structure TestResult where
  status : String
  start_time : Option Int
  end_time : Option Int
  actions_executed : List ActionResult
  screenshots : List String
  errors : List String
deriving DecidableEq

/-- Property `TestResult.duration_ms`: defined only once both timestamps are
set. -/
def TestResult.duration_ms (r : TestResult) : Option Int :=
  match r.start_time, r.end_time with
  | some s, some e => some (e - s)
  | _, _ => none

/-- Property `TestResult.passed`: `status == "passed" and len(errors) == 0`. -/
def TestResult.passed (r : TestResult) : Bool :=
  r.status == "passed" && r.errors.length == 0

/-- The error message `execute_test` records for a failed action:
`f"Action failed: {action.description} - {action_result.get('error', 'Unknown error')}"`. -/
def failMsg (a : Action) (r : ActionResult) : String :=
  "Action failed: " ++ a.description ++ " - " ++ r.error.getD "Unknown error"

/-- The action loop of `MCPServer.execute_test`, returning the
accumulated `(actions_executed, screenshots, errors)`.  `ex` is the
executor seen as an oracle indexed by loop position (its real
counterpart `ActionExecutor.execute` never raises, see `execute`);
`shot` is `browser.take_screenshot` for the best-effort diagnostic
screenshot named `error_step_{i+1}`, whose own failure is swallowed.
On the first `error`-status result the loop records the formatted
message and breaks (fail-fast). -/
def runActions (ex : Nat → Action → ActionResult)
    (shot : Nat → Except String String) :
    Nat → List Action → List ActionResult × List String × List String
  | _, [] => ([], [], [])
  | i, a :: rest =>
    let r := ex i a
    let shotsHere :=
      match dictGet r.data "screenshot_path" with
      | some p => [p]
      | none => []
    if r.status = "error" then
      let errShot :=
        match shot (i + 1) with
        | .ok p => [p]
        | .error _ => []
      ([r], shotsHere ++ errShot, [failMsg a r])
    else
      let rec' := runActions ex shot (i + 1) rest
      (r :: rec'.1, shotsHere ++ rec'.2.1, rec'.2.2)

/-- Method `MCPServer.execute_test`, with the parser call abstracted to its
outcome `parseRes` (an `Except`, since the outermost `try` also guards
the parse) and the executor and diagnostic-screenshot collaborators as
oracles.  `t0`/`t1` are the start/end clock readings. -/
def execute_test (parseRes : Except String (List Action))
    (ex : Nat → Action → ActionResult) (shot : Nat → Except String String)
    (t0 t1 : Int) : TestResult :=
  match parseRes with
  | .error e =>
    { status := "error", start_time := some t0, end_time := some t1,
      actions_executed := [], screenshots := [],
      errors := ["Test execution error: " ++ e] }
  | .ok actions =>
    if actions = [] then
      { status := "failed", start_time := some t0, end_time := some t1,
        actions_executed := [], screenshots := [],
        errors := ["No actions could be parsed from instruction"] }
    else
      let out := runActions ex shot 0 actions
      { status := if out.2.2 = [] then "passed" else "failed",
        start_time := some t0, end_time := some t1,
        actions_executed := out.1, screenshots := out.2.1,
        errors := out.2.2 }

/-! ### Concrete fixtures used by witness theorems -/

instance : Inhabited Action := ⟨⟨"navigate", [], "Navigate to homepage"⟩⟩

/-- A browser oracle on which every operation succeeds. -/
def okEnv : BrowserEnv where
  navigate_to := fun _ => .ok ()
  go_to_homepage := .ok ()
  search_product := fun _ => .ok ()
  click_element := fun _ => .ok ()
  fill_input := fun _ _ => .ok ()
  add_to_cart := .ok ()
  go_to_cart := .ok ()
  proceed_to_checkout := .ok ()
  verify_text_contains := fun _ _ => .ok ()
  verify_element_present := fun _ => .ok ()
  verify_url_contains := fun _ => .ok ()
  take_screenshot := fun n => .ok ("screenshots/" ++ n)
  select_product_variant := fun _ _ => .ok ()

/-- A successful executor result, as a fixture. -/
def okResult : ActionResult :=
  { status := "success", action := "navigate", data := [], error := none }

/-- A failed executor result, as a fixture. -/
def errResult : ActionResult :=
  { status := "error", action := "click", data := [],
    error := some "element not found" }

/-- A three-action fixture list. -/
def wActs : List Action :=
  [mkAction "navigate" [("url", "homepage")] "Navigate to homepage",
   mkAction "click" [("selector", "button")] "Click button",
   mkAction "screenshot" [] "Take screenshot"]

/-- An executor oracle fixture: the first call succeeds, later calls
fail. -/
def wEx : Nat → Action → ActionResult :=
  fun i _ => if i = 0 then okResult else errResult

/-- A diagnostic-screenshot oracle fixture that itself fails. -/
def wShot : Nat → Except String String :=
  fun _ => .error "screenshot failed"

/-! ### Claims -/

/-- C1: for every `Action` whose `action_type` is not one of the twelve
recognized kinds, `ActionExecutor._dispatch_action` raises immediately
to its caller (`Except.error`, the model of the `ValueError`), rather
than returning a soft `error`-status `ActionResult` — dispatch does not
build `ActionResult`s at all. -/
theorem dispatch_unknown_kind_raises (env : BrowserEnv) (a : Action)
    (h : a.action_type ∉ actionTypeValues) :
    dispatch_action env a =
      Except.error ("Unknown action type: " ++ a.action_type) := by
  simp only [actionTypeValues, List.mem_cons, List.not_mem_nil, or_false,
    not_or] at h
  obtain ⟨h1, h2, h3, h4, h5, h6, h7, h8, h9, h10, h11, h12⟩ := h
  simp [dispatch_action, h1, h2, h3, h4, h5, h6, h7, h8, h9, h10, h11, h12]

/-- C1 witness: a concrete unknown kind raises. -/
theorem dispatch_unknown_kind_raises_witness :
    dispatch_action okEnv ⟨"hover", [], "Hover menu"⟩ =
      Except.error ("Unknown action type: " ++ "hover") :=
  dispatch_unknown_kind_raises okEnv ⟨"hover", [], "Hover menu"⟩ (by decide)

/-- C2 counterexample: on `"Go to homepage and search for laptop"` the
rule-based parser does NOT return the claimed two-action sequence
`[navigate, search]`: the instruction has no sentence-ending punctuation,
so it is a single step, and the step's first keyword match (`go to`)
wins — the `search` branch of the `elif` chain is never reached. -/
theorem rulesParse_homepage_search_counterexample :
    parse_with_rules "Go to homepage and search for laptop" ≠
      [mkAction "navigate" [("url", "homepage")] "Navigate to homepage",
       mkAction "search" [("term", "laptop")] "Search for laptop"] := by
  decide

/-- C2 amended: on `"Go to homepage and search for laptop"` the
rule-based parser returns exactly one action, the navigate action with
parameters `{url: "homepage"}`; the search clause of the same sentence
is silently consumed by the first-match-wins navigate rule. -/
theorem rulesParse_homepage_search :
    parse_with_rules "Go to homepage and search for laptop" =
      [mkAction "navigate" [("url", "homepage")] "Navigate to homepage"] := by
  decide

/-- C4: `ActionExecutor.execute` never raises — it is a total function
into `ActionResult` whose status is always `success` or `error`; every
raise from dispatch or a handler (`Except.error`) is converted to an
`error`-status result carrying the exception's message; in particular a
`fill` action with empty parameters yields an `error` result with the
parameter-validation message. -/
theorem execute_never_raises :
    (∀ env a, (execute env a).status = "success" ∨
      (execute env a).status = "error") ∧
    (∀ env a e, dispatch_action env a = Except.error e →
      execute env a =
        { status := "error", action := a.action_type, data := [],
          error := some e }) ∧
    (∀ env d, execute env (mkAction "fill" [] d) =
      { status := "error", action := "fill", data := [],
        error := some "Selector and text parameters required for fill action" }) := by
  refine ⟨fun env a => ?_, fun env a e h => ?_, fun env d => ?_⟩
  · unfold execute
    cases dispatch_action env a <;> simp
  · unfold execute
    rw [h]
  · unfold execute dispatch_action mkAction
    simp [handle_fill, dictGetNonEmpty, dictGet]

/-- C4 witness: the `fill`-with-empty-parameters scenario at a concrete
environment. -/
theorem execute_never_raises_witness :
    execute okEnv (mkAction "fill" [] "Fill the form") =
      { status := "error", action := "fill", data := [],
        error := some "Selector and text parameters required for fill action" } :=
  execute_never_raises.2.1 okEnv (mkAction "fill" [] "Fill the form")
    "Selector and text parameters required for fill action" (by rfl)

/-- C5: whenever the parse yields an empty action sequence,
`execute_test` returns status `failed`, exactly the single error
`"No actions could be parsed from instruction"`, and an empty
`actions_executed`. -/
theorem execute_test_empty_parse (ex : Nat → Action → ActionResult)
    (shot : Nat → Except String String) (t0 t1 : Int) :
    execute_test (Except.ok []) ex shot t0 t1 =
      { status := "failed", start_time := some t0, end_time := some t1,
        actions_executed := [], screenshots := [],
        errors := ["No actions could be parsed from instruction"] } := rfl

/-- C7: any failure of the LLM path (the oracle covering the network
round-trip and JSON extraction raising) makes `parse` fall back to the
rule-based strategy on the same instruction; consequently when the
rule-based strategy also extracts nothing, `parse` returns the empty
sequence rather than propagating the failure.  (`parse` is a total
function into `List Action` — the model has no raise channel left, which
is the "never raises" contract.) -/
theorem parse_llm_failure_falls_back :
    (∀ f instruction e, f instruction = Except.error e →
      parse (some f) instruction = parse_with_rules instruction) ∧
    (∀ f instruction e, f instruction = Except.error e →
      parse_with_rules instruction = [] →
      parse (some f) instruction = []) := by
  have base : ∀ (f : String → Except String (List RawActionData))
      (instruction e : String), f instruction = Except.error e →
      parse (some f) instruction = parse_with_rules instruction := by
    intro f instruction e h
    simp [parse, parse_with_llm, h]
  exact ⟨base, fun f instruction e h h' => by rw [base f instruction e h, h']⟩

/-- C7 witness: a concrete failing LLM oracle falls back to the
rule-based parse of the same instruction. -/
theorem parse_llm_failure_falls_back_witness :
    parse (some fun _ => Except.error "connection refused") "Go to homepage" =
      parse_with_rules "Go to homepage" :=
  parse_llm_failure_falls_back.1 (fun _ => Except.error "connection refused")
    "Go to homepage" "connection refused" rfl

/-- C8: the derived boolean `TestResult.passed` is `true` exactly when
the status is `"passed"` and the error list is empty — the two can never
disagree. -/
theorem passed_iff_status_and_no_errors (r : TestResult) :
    r.passed = true ↔ (r.status = "passed" ∧ r.errors = []) := by
  simp [TestResult.passed, List.length_eq_zero]

/-- C6: every step containing a navigate keyword (`go to`, `navigate
to`, `visit`, `open`) yields the literal-`"homepage"` navigate action
when the step mentions `homepage`/`home page`, and otherwise the
go-to-cart navigation when it mentions `cart`. -/
theorem parseStep_navigate_branch (step : String)
    (hnav : containsAnyOf (lowerStr step)
      ["go to", "navigate to", "visit", "open"] = true) :
    ((strContains (lowerStr step) "homepage" ||
        strContains (lowerStr step) "home page") = true →
      parseStep step =
        [mkAction "navigate" [("url", "homepage")] "Navigate to homepage"]) ∧
    ((strContains (lowerStr step) "homepage" ||
        strContains (lowerStr step) "home page") = false →
      strContains (lowerStr step) "cart" = true →
      parseStep step = [mkAction "go_to_cart" [] "Navigate to cart"]) := by
  constructor
  · intro h
    simp [parseStep, hnav, h]
  · intro h hc
    simp [parseStep, hnav, h, hc]

/-- C6 witness: a concrete navigate step with a homepage mention. -/
theorem parseStep_navigate_branch_witness :
    parseStep "go to the homepage" =
      [mkAction "navigate" [("url", "homepage")] "Navigate to homepage"] :=
  (parseStep_navigate_branch "go to the homepage" (by decide)).1 (by decide)

/-- C9: the `TestResult` returned by `execute_test` is finalized on
every path: its status is one of `passed`, `failed`, `error` (never
`pending` or `running`), its end time is set, and its duration is
therefore defined as end minus start. -/
theorem execute_test_finalized (p : Except String (List Action))
    (ex : Nat → Action → ActionResult) (shot : Nat → Except String String)
    (t0 t1 : Int) :
    ((execute_test p ex shot t0 t1).status = "passed" ∨
     (execute_test p ex shot t0 t1).status = "failed" ∨
     (execute_test p ex shot t0 t1).status = "error") ∧
    (execute_test p ex shot t0 t1).end_time = some t1 ∧
    (execute_test p ex shot t0 t1).duration_ms = some (t1 - t0) := by
  cases p with
  | error e => simp [execute_test, TestResult.duration_ms]
  | ok acts =>
    by_cases h : acts = []
    · simp [execute_test, h, TestResult.duration_ms]
    · by_cases he : (runActions ex shot 0 acts).2.2 = [] <;>
        simp [execute_test, h, he, TestResult.duration_ms]

/-- Helper: the orchestrator's action loop records at most one error
(it breaks on the first one). -/
theorem runActions_errors_length_le (ex : Nat → Action → ActionResult)
    (shot : Nat → Except String String) :
    ∀ (i : Nat) (acts : List Action),
      (runActions ex shot i acts).2.2.length ≤ 1 := by
  intro i acts
  induction acts generalizing i with
  | nil => simp [runActions]
  | cons a rest ih =>
    by_cases h : (ex i a).status = "error"
    · simp [runActions, h]
    · simpa [runActions, h] using ih (i + 1)

/-- C10: no `execute_test` run accumulates two or more errors: the
empty-parse path, the fail-fast action loop, and the orchestrator-level
exception path each record at most one. -/
theorem execute_test_at_most_one_error (p : Except String (List Action))
    (ex : Nat → Action → ActionResult) (shot : Nat → Except String String)
    (t0 t1 : Int) :
    (execute_test p ex shot t0 t1).errors.length ≤ 1 := by
  cases p with
  | error e => simp [execute_test]
  | ok acts =>
    by_cases h : acts = []
    · simp [execute_test, h]
    · simpa [execute_test, h] using runActions_errors_length_le ex shot 0 acts

/-- Helper: peeling the head off a map over an initial segment. -/
theorem range_map_cons_shift {α : Type} (f : Nat → α) (n : Nat) :
    (List.range (n + 1)).map f = f 0 :: (List.range n).map (fun j => f (j + 1)) := by
  rw [List.range_succ_eq_map, List.map_cons, List.map_map]
  rfl

/-- Helper: the fail-fast shape of the orchestrator's action loop.  If
the executor oracle succeeds on the first `k - 1` actions and errors on
the `k`-th, the loop's `actions_executed` is exactly the results of the
first `k` actions and its error list is exactly the one formatted
message for the `k`-th. -/
theorem runActions_failfast_aux (ex : Nat → Action → ActionResult)
    (shot : Nat → Except String String) :
    ∀ (acts : List Action) (i k : Nat), 1 ≤ k → k ≤ acts.length →
      (∀ j, j < k - 1 → (ex (i + j) (acts.getD j default)).status = "success") →
      (ex (i + (k - 1)) (acts.getD (k - 1) default)).status = "error" →
      (runActions ex shot i acts).1 =
        (List.range k).map (fun j => ex (i + j) (acts.getD j default)) ∧
      (runActions ex shot i acts).2.2 =
        [failMsg (acts.getD (k - 1) default)
          (ex (i + (k - 1)) (acts.getD (k - 1) default))] := by
  intro acts
  induction acts with
  | nil =>
    intro i k hk hle _ _
    simp at hle
    omega
  | cons a rest ih =>
    intro i k hk hle hsucc herr
    rcases Nat.lt_or_ge k 2 with hk2 | hk2
    · obtain rfl : k = 1 := by omega
      have herr' : (ex i a).status = "error" := by simpa using herr
      refine ⟨?_, ?_⟩ <;> simp [runActions, herr', List.range_succ]
    · obtain ⟨k'', rfl⟩ : ∃ m, k = m + 2 := ⟨k - 2, by omega⟩
      have e1 : k'' + 2 - 1 = k'' + 1 := by omega
      rw [e1] at herr ⊢
      have h0 : (ex i a).status = "success" := by
        simpa using hsucc 0 (by omega)
      have h0ne : ¬(ex i a).status = "error" := by
        rw [h0]; decide
      have hsucc' : ∀ j, j < k'' + 1 - 1 →
          (ex (i + 1 + j) (rest.getD j default)).status = "success" := by
        intro j hj
        have h := hsucc (j + 1) (by omega)
        have hadd : i + (j + 1) = i + 1 + j := by omega
        rw [List.getD_cons_succ, hadd] at h
        exact h
      have herr'' :
          (ex (i + 1 + (k'' + 1 - 1)) (rest.getD (k'' + 1 - 1) default)).status
            = "error" := by
        have hadd : i + (k'' + 1) = i + 1 + (k'' + 1 - 1) := by omega
        have e2 : k'' + 1 - 1 = k'' := by omega
        rw [List.getD_cons_succ, hadd, e2] at herr
        rw [e2]
        exact herr
      have ihres := ih (i + 1) (k'' + 1) (by omega)
        (by simp only [List.length_cons] at hle; omega) hsucc' herr''
      have e2 : k'' + 1 - 1 = k'' := by omega
      rw [e2] at ihres
      refine ⟨?_, ?_⟩
      · simp only [runActions]
        rw [if_neg h0ne, ihres.1]
        conv_rhs => rw [range_map_cons_shift]
        simp
        intro j hj
        have hadd : i + 1 + j = i + (j + 1) := by omega
        rw [hadd]
      · simp only [runActions]
        rw [if_neg h0ne, ihres.2]
        have hadd : i + 1 + k'' = i + (k'' + 1) := by omega
        simp [hadd]

/-- C3: fail-fast in `execute_test` — when the executor succeeds on the
first `k - 1` parsed actions and first returns an `error`-status result
on the `k`-th (1-indexed), the returned `TestResult` has exactly `k`
entries in `actions_executed` (the results of the first `k` actions and
nothing after them), and exactly one error, the formatted message
referencing the `k`-th action's description. -/
theorem execute_test_failfast (acts : List Action)
    (ex : Nat → Action → ActionResult) (shot : Nat → Except String String)
    (t0 t1 : Int) (k : Nat) (hk : 1 ≤ k) (hle : k ≤ acts.length)
    (hsucc : ∀ j, j < k - 1 → (ex j (acts.getD j default)).status = "success")
    (herr : (ex (k - 1) (acts.getD (k - 1) default)).status = "error") :
    (execute_test (Except.ok acts) ex shot t0 t1).actions_executed.length = k ∧
    (execute_test (Except.ok acts) ex shot t0 t1).actions_executed =
      (List.range k).map (fun j => ex j (acts.getD j default)) ∧
    (execute_test (Except.ok acts) ex shot t0 t1).errors =
      [failMsg (acts.getD (k - 1) default)
        (ex (k - 1) (acts.getD (k - 1) default))] := by
  have hne : acts ≠ [] := by
    intro h
    rw [h] at hle
    simp at hle
    omega
  have haux := runActions_failfast_aux ex shot acts 0 k hk hle
    (by intro j hj; simpa using hsucc j hj) (by simpa using herr)
  refine ⟨?_, ?_, ?_⟩ <;> simp [execute_test, hne, haux.1, haux.2]

/-- C3 witness: with a three-action fixture whose executor succeeds once
then errors, the test stops after exactly two executed actions. -/
theorem execute_test_failfast_witness :
    (execute_test (Except.ok wActs) wEx wShot 0 5).actions_executed.length = 2 :=
  (execute_test_failfast wActs wEx wShot 0 5 2 (by decide) (by decide)
    (by decide) (by decide)).1

end QA
